import Mathlib

/-!
Shallow embedding of `src/simulate.py` (chiplet-bhsim), a closed-form
analytical latency/power model for a heterogeneous chiplet package.

Modelling choices:
* Python ints (die/core counts, from `argparse type=int`) become `ℤ`;
  Python floats become `ℚ` (the model is exact closed-form arithmetic,
  and every claim is about the algebraic formulas, not about rounding).
* The fixed constants set in `ChipletConfig.__init__` are module-level
  definitions, since the Python class always assigns the same literals.
* Python raises `ZeroDivisionError` on division by zero (for floats as
  well as ints).  The pure functions below (`calculate_*`) use total
  field division on `ℚ` and are the faithful translation on every input
  where no denominator is zero; the `...E` variants return `Option` and
  produce `none` exactly where Python would raise, mirroring the order
  of evaluation in the source.  `runE_eq_some` connects the two.
-/

namespace ChipletSim

/-- Source: `self.interconnect_latency = 50e-9` (seconds). -/
def interconnect_latency : ℚ := 50e-9

/-- Source: `self.interconnect_power_per_bit = 2e-12` (J/bit). -/
def interconnect_power_per_bit : ℚ := 2e-12

/-- Source: `self.coherence_latency = 20e-9` (seconds per operation). -/
def coherence_latency : ℚ := 20e-9

/-- Source: `self.coherence_power_per_op = 0.05` (W per operation). -/
def coherence_power_per_op : ℚ := 0.05

/-- Source: `self.sync_latency = 5e-6` (seconds per sync). -/
def sync_latency : ℚ := 5e-6

/-- Source: `self.cpu_freq = 2.5` (GHz). -/
def cpu_freq : ℚ := 2.5

/-- Source: `self.npu_freq = 1.5` (GHz). -/
def npu_freq : ℚ := 1.5

/-- Source: `self.cpu_dmips_per_core = 4000`. -/
def cpu_dmips_per_core : ℚ := 4000

/-- Source: `self.npu_macs_per_core = 2048`. -/
def npu_macs_per_core : ℚ := 2048

/-- Source: `self.cpu_power_per_core = 3.0` (W/core). -/
def cpu_power_per_core : ℚ := 3

/-- Source: `self.npu_power_per_core = 1.0` (W/core). -/
def npu_power_per_core : ℚ := 1

/-- Source: `self.memory_power = 5.0` (W). -/
def memory_power : ℚ := 5

/-- The caller-supplied fields of `ChipletConfig` (`simulate.py` lines 5-14). -/
structure ChipletConfig where
  cpu_dies : ℤ
  cpu_cores_per_die : ℤ
  npu_dies : ℤ
  npu_cores_per_die : ℤ
  interconnect_bw : ℚ
  memory_bw : ℚ
deriving DecidableEq

/-- The `Workload` record (`simulate.py` lines 26-32). -/
structure Workload where
  cpu_flops : ℚ
  npu_flops : ℚ
  inference_freq : ℚ
  linux_dmips : ℚ
  data_size_per_inference : ℚ
deriving DecidableEq

/-- A strictly positive hardware configuration (spec section 3 invariant). -/
def ChipletConfig.Positive (c : ChipletConfig) : Prop :=
  0 < c.cpu_dies ∧ 0 < c.cpu_cores_per_die ∧ 0 < c.npu_dies ∧
    0 < c.npu_cores_per_die ∧ 0 < c.interconnect_bw ∧ 0 < c.memory_bw

instance (c : ChipletConfig) : Decidable c.Positive := by
  unfold ChipletConfig.Positive; infer_instance

/-- A strictly positive workload. -/
def Workload.Positive (w : Workload) : Prop :=
  0 < w.cpu_flops ∧ 0 < w.npu_flops ∧ 0 < w.inference_freq ∧
    0 < w.linux_dmips ∧ 0 < w.data_size_per_inference

instance (w : Workload) : Decidable w.Positive := by
  unfold Workload.Positive; infer_instance

/-- Source: `BehavioralSimulator.calculate_interconnect_overhead` (lines 39-44):
returns `(transfer_time_ms, interconnect_power_w)`. -/
def calculate_interconnect_overhead (c : ChipletConfig) (w : Workload) : ℚ × ℚ :=
  let data_size_gb := w.data_size_per_inference
  let transfer_time := (data_size_gb / c.interconnect_bw + interconnect_latency) * 1000
  let data_bits := data_size_gb * 8e9
  let interconnect_power := data_bits * interconnect_power_per_bit * w.inference_freq
  (transfer_time, interconnect_power)

/-- Source: `coherence_ops_per_inference = 10` (line 47). -/
def coherence_ops_per_inference : ℚ := 10

/-- Source: `BehavioralSimulator.calculate_coherence_overhead` (lines 46-50):
returns `(coherence_time_ms, coherence_power_w)`. -/
def calculate_coherence_overhead (c : ChipletConfig) (w : Workload) : ℚ × ℚ :=
  (coherence_ops_per_inference * coherence_latency * 1000,
    coherence_ops_per_inference * coherence_power_per_op * w.inference_freq)

/-- Source: `total_cpu_cores = cpu_dies * cpu_cores_per_die` (line 54). -/
def total_cpu_cores (c : ChipletConfig) : ℤ := c.cpu_dies * c.cpu_cores_per_die

/-- Source: `total_npu_cores = npu_dies * npu_cores_per_die` (line 61). -/
def total_npu_cores (c : ChipletConfig) : ℤ := c.npu_dies * c.npu_cores_per_die

/-- Source: `cpu_flops_per_core = self.config.cpu_freq * 1e9` (line 55). -/
def cpu_flops_per_core : ℚ := cpu_freq * 1e9

/-- Source: `cpu_time_linux` (line 56), in ms. -/
def cpu_time_linux (c : ChipletConfig) (w : Workload) : ℚ :=
  w.linux_dmips / ((total_cpu_cores c : ℚ) * cpu_dmips_per_core) * 1000

/-- Source: `cpu_time_ai` (line 57), in ms. -/
def cpu_time_ai (c : ChipletConfig) (w : Workload) : ℚ :=
  w.cpu_flops / ((total_cpu_cores c : ℚ) * cpu_flops_per_core) * 1000

/-- Source: `cpu_time = max(cpu_time_linux, cpu_time_ai)` (line 58). -/
def cpu_time (c : ChipletConfig) (w : Workload) : ℚ :=
  max (cpu_time_linux c w) (cpu_time_ai c w)

/-- Source: `npu_flops_per_core = self.config.npu_macs_per_core * self.config.npu_freq * 2`
(line 62).  Note: the source multiplies by `npu_freq = 1.5` (the GHz number)
without the `* 1e9` conversion that the CPU path applies on line 55. -/
def npu_flops_per_core : ℚ := npu_macs_per_core * npu_freq * 2

/-- Source: `npu_time` (line 63), in ms. -/
def npu_time (c : ChipletConfig) (w : Workload) : ℚ :=
  w.npu_flops / ((total_npu_cores c : ℚ) * npu_flops_per_core) * 1000

/-- Source: `sync_time = self.config.sync_latency * self.workload.inference_freq * 1000`
(line 72). -/
def sync_time (c : ChipletConfig) (w : Workload) : ℚ :=
  sync_latency * w.inference_freq * 1000

/-- Source: `effective_memory_bw` (line 75). -/
def effective_memory_bw (c : ChipletConfig) : ℚ :=
  c.memory_bw / (1 + 0.2 * ((c.cpu_cores_per_die : ℚ) + (c.npu_cores_per_die : ℚ)))

/-- Source: `memory_time` (line 76), in ms. -/
def memory_time (c : ChipletConfig) (w : Workload) : ℚ :=
  w.data_size_per_inference / effective_memory_bw c * 1000

/-- Source: `total_time` (line 78), in ms. -/
def total_time (c : ChipletConfig) (w : Workload) : ℚ :=
  max (cpu_time c w) (npu_time c w) + (calculate_interconnect_overhead c w).1 +
    (calculate_coherence_overhead c w).1 + sync_time c w + memory_time c w

/-- Source: `BehavioralSimulator.calculate_power` (lines 81-89), in W. -/
def calculate_power (c : ChipletConfig) (w : Workload) : ℚ :=
  (total_cpu_cores c : ℚ) * cpu_power_per_core +
    (total_npu_cores c : ℚ) * npu_power_per_core +
    (calculate_interconnect_overhead c w).2 +
    (calculate_coherence_overhead c w).2 + memory_power

/-- The record returned by `BehavioralSimulator.run` (lines 91-107). -/
structure SimResult where
  cpu_dies : ℤ
  cpu_cores_per_die : ℤ
  npu_dies : ℤ
  npu_cores_per_die : ℤ
  cpu_time_ms : ℚ
  npu_time_ms : ℚ
  interconnect_time_ms : ℚ
  coherence_time_ms : ℚ
  sync_time_ms : ℚ
  memory_time_ms : ℚ
  total_time_ms : ℚ
  total_power_w : ℚ
deriving DecidableEq

/-- Division as Python evaluates it: `a / b` raises `ZeroDivisionError`
when `b == 0` (for floats as well as ints), modelled as `none`. -/
def div? (a b : ℚ) : Option ℚ :=
  if b = 0 then none else some (a / b)

/-- Fallible `calculate_interconnect_overhead`: `none` exactly when the
source would raise `ZeroDivisionError` (at `data_size_gb / interconnect_bw`). -/
def calculate_interconnect_overheadE (c : ChipletConfig) (w : Workload) :
    Option (ℚ × ℚ) :=
  Option.bind (div? w.data_size_per_inference c.interconnect_bw) fun q =>
    some ((q + interconnect_latency) * 1000,
      w.data_size_per_inference * 8e9 * interconnect_power_per_bit * w.inference_freq)

/-- Fallible `calculate_performance` (lines 52-79): performs the divisions in
source order, propagating `ZeroDivisionError` as `none`; on success returns
the 7-tuple `(cpu_time, npu_time, interconnect_time, coherence_time,
sync_time, memory_time, total_time)`. -/
def calculate_performanceE (c : ChipletConfig) (w : Workload) :
    Option (ℚ × ℚ × ℚ × ℚ × ℚ × ℚ × ℚ) :=
  Option.bind (div? w.linux_dmips ((total_cpu_cores c : ℚ) * cpu_dmips_per_core)) fun ql =>
  Option.bind (div? w.cpu_flops ((total_cpu_cores c : ℚ) * cpu_flops_per_core)) fun qa =>
  Option.bind (div? w.npu_flops ((total_npu_cores c : ℚ) * npu_flops_per_core)) fun qn =>
  Option.bind (calculate_interconnect_overheadE c w) fun ic =>
  Option.bind (div? c.memory_bw
      (1 + 0.2 * ((c.cpu_cores_per_die : ℚ) + (c.npu_cores_per_die : ℚ)))) fun ebw =>
  Option.bind (div? w.data_size_per_inference ebw) fun qm =>
  let cpu_t := max (ql * 1000) (qa * 1000)
  let npu_t := qn * 1000
  let coh := calculate_coherence_overhead c w
  let sync_t := sync_latency * w.inference_freq * 1000
  let mem_t := qm * 1000
  some (cpu_t, npu_t, ic.1, coh.1, sync_t, mem_t,
    max cpu_t npu_t + ic.1 + coh.1 + sync_t + mem_t)

/-- Fallible `calculate_power` (lines 81-89): `none` exactly when
`calculate_interconnect_overhead` would raise. -/
def calculate_powerE (c : ChipletConfig) (w : Workload) : Option ℚ :=
  Option.bind (calculate_interconnect_overheadE c w) fun ic =>
    some ((total_cpu_cores c : ℚ) * cpu_power_per_core +
      (total_npu_cores c : ℚ) * npu_power_per_core +
      ic.2 + (calculate_coherence_overhead c w).2 + memory_power)

/-- Fallible `BehavioralSimulator.run` (lines 91-107). -/
def runE (c : ChipletConfig) (w : Workload) : Option SimResult :=
  Option.bind (calculate_performanceE c w) fun p =>
  Option.bind (calculate_powerE c w) fun tp =>
  some ⟨c.cpu_dies, c.cpu_cores_per_die, c.npu_dies, c.npu_cores_per_die,
    p.1, p.2.1, p.2.2.1, p.2.2.2.1, p.2.2.2.2.1, p.2.2.2.2.2.1, p.2.2.2.2.2.2, tp⟩

/-- The concrete scenario of spec section 8: `cpu_dies=2, cpu_cores=4,
npu_dies=1, npu_cores=8, interconnect_bw=64, memory_bw=100`. -/
def cfgA : ChipletConfig := ⟨2, 4, 1, 8, 64, 100⟩

/-- Workload of the spec section 8 scenario: `cpu_flops=1e9, npu_flops=2e10,
inference_freq=30, linux_dmips=2000, data_size=0.01`. -/
def wA : Workload := ⟨1e9, 2e10, 30, 2000, 0.01⟩

/-- Same topology and rates as `cfgA`, different bandwidths. -/
def cfgB : ChipletConfig := ⟨2, 4, 1, 8, 128, 50⟩

/-- Same `inference_freq` and `data_size_per_inference` as `wA`, different
compute demand volumes. -/
def wB : Workload := ⟨7, 11, 30, 13, 0.01⟩

/-- The workload of `wA` with `inference_freq = 0`. -/
def wF : Workload := ⟨1e9, 2e10, 0, 2000, 0.01⟩

/-- The configuration of `cfgA` with `cpu_dies = 0`. -/
def cfgZ : ChipletConfig := ⟨0, 4, 1, 8, 64, 100⟩

/-- The workload of `wA` with `data_size_per_inference = 0`. -/
def wZ : Workload := ⟨1e9, 2e10, 30, 2000, 0⟩

/-- The configuration of `cfgA` with `cpu_dies = -1`. -/
def cfgN : ChipletConfig := ⟨-1, 4, 1, 8, 64, 100⟩

/-- Claim C2: for every positive configuration and workload, the total time
equals `max(cpu_time, npu_time) + interconnect_time + coherence_time +
sync_time + memory_time`, with `sync_time = 5e-6 * inference_freq * 1000`. -/
theorem total_time_decomposition (c : ChipletConfig) (w : Workload)
    (hc : c.Positive) (hw : w.Positive) :
    total_time c w =
      max (cpu_time c w) (npu_time c w) + (calculate_interconnect_overhead c w).1 +
        (calculate_coherence_overhead c w).1 + 5e-6 * w.inference_freq * 1000 +
        memory_time c w := by
  simp [total_time, sync_time, sync_latency]

/-- Witness for C2 at the spec section 8 scenario. -/
theorem total_time_decomposition_witness :
    (cfgA.Positive ∧ wA.Positive) ∧
      total_time cfgA wA =
        max (cpu_time cfgA wA) (npu_time cfgA wA) +
          (calculate_interconnect_overhead cfgA wA).1 +
          (calculate_coherence_overhead cfgA wA).1 + 5e-6 * wA.inference_freq * 1000 +
          memory_time cfgA wA :=
  ⟨⟨by norm_num [ChipletConfig.Positive, cfgA], by norm_num [Workload.Positive, wA]⟩,
    total_time_decomposition cfgA wA (by norm_num [ChipletConfig.Positive, cfgA])
      (by norm_num [Workload.Positive, wA])⟩

/-- Claim C3: the CPU stage time is the maximum (never the sum) of the
background-OS term `linux_dmips / (cpu_dies*cpu_cores_per_die*4000) * 1000`
and the inference term `cpu_flops / (cpu_dies*cpu_cores_per_die*2.5e9) * 1000`. -/
theorem cpu_time_max_of_demands (c : ChipletConfig) (w : Workload)
    (hc : c.Positive) (hw : w.Positive) :
    cpu_time c w =
      max (w.linux_dmips / ((c.cpu_dies : ℚ) * (c.cpu_cores_per_die : ℚ) * 4000) * 1000)
        (w.cpu_flops / ((c.cpu_dies : ℚ) * (c.cpu_cores_per_die : ℚ) * 2.5e9) * 1000) := by
  have h1 : cpu_time_linux c w =
      w.linux_dmips / ((c.cpu_dies : ℚ) * (c.cpu_cores_per_die : ℚ) * 4000) * 1000 := by
    simp only [cpu_time_linux, total_cpu_cores, cpu_dmips_per_core]
    push_cast
    ring_nf
  have h2 : cpu_time_ai c w =
      w.cpu_flops / ((c.cpu_dies : ℚ) * (c.cpu_cores_per_die : ℚ) * 2.5e9) * 1000 := by
    simp only [cpu_time_ai, total_cpu_cores, cpu_flops_per_core, cpu_freq]
    push_cast
    norm_num
  rw [cpu_time, h1, h2]

/-- Witness for C3 at the spec section 8 scenario. -/
theorem cpu_time_max_of_demands_witness :
    (cfgA.Positive ∧ wA.Positive) ∧
      cpu_time cfgA wA =
        max (wA.linux_dmips / ((cfgA.cpu_dies : ℚ) * (cfgA.cpu_cores_per_die : ℚ) * 4000) * 1000)
          (wA.cpu_flops / ((cfgA.cpu_dies : ℚ) * (cfgA.cpu_cores_per_die : ℚ) * 2.5e9) * 1000) :=
  ⟨⟨by norm_num [ChipletConfig.Positive, cfgA], by norm_num [Workload.Positive, wA]⟩,
    cpu_time_max_of_demands cfgA wA (by norm_num [ChipletConfig.Positive, cfgA])
      (by norm_num [Workload.Positive, wA])⟩

/-- Claim C4: the memory stage time is `data_size / (memory_bw / (1 + 0.2 *
(cpu_cores_per_die + npu_cores_per_die))) * 1000`, and it does not depend on
the die counts (replacing both die counts leaves it unchanged). -/
theorem memory_time_formula_die_invariant (c : ChipletConfig) (w : Workload)
    (d e : ℤ) (hc : c.Positive) (hw : w.Positive) :
    memory_time c w =
      w.data_size_per_inference /
        (c.memory_bw /
          (1 + 0.2 * ((c.cpu_cores_per_die : ℚ) + (c.npu_cores_per_die : ℚ)))) * 1000 ∧
    memory_time { c with cpu_dies := d, npu_dies := e } w = memory_time c w := by
  constructor <;> simp [memory_time, effective_memory_bw]

/-- Witness for C4 at the spec section 8 scenario, with both die counts
replaced by 7 and 9. -/
theorem memory_time_formula_die_invariant_witness :
    (cfgA.Positive ∧ wA.Positive) ∧
      (memory_time cfgA wA =
        wA.data_size_per_inference /
          (cfgA.memory_bw /
            (1 + 0.2 * ((cfgA.cpu_cores_per_die : ℚ) + (cfgA.npu_cores_per_die : ℚ)))) * 1000 ∧
      memory_time { cfgA with cpu_dies := 7, npu_dies := 9 } wA = memory_time cfgA wA) :=
  ⟨⟨by norm_num [ChipletConfig.Positive, cfgA], by norm_num [Workload.Positive, wA]⟩,
    memory_time_formula_die_invariant cfgA wA 7 9
      (by norm_num [ChipletConfig.Positive, cfgA]) (by norm_num [Workload.Positive, wA])⟩

/-- Claim C5: the interconnect estimator returns
`time_ms = (data_size / interconnect_bw + 50e-9) * 1000` and
`power_w = data_size * 8e9 * 2e-12 * inference_freq`. -/
theorem interconnect_overhead_formulas (c : ChipletConfig) (w : Workload)
    (hc : c.Positive) (hw : w.Positive) :
    (calculate_interconnect_overhead c w).1 =
      (w.data_size_per_inference / c.interconnect_bw + 50e-9) * 1000 ∧
    (calculate_interconnect_overhead c w).2 =
      w.data_size_per_inference * 8e9 * 2e-12 * w.inference_freq := by
  constructor <;>
    simp [calculate_interconnect_overhead, interconnect_latency,
      interconnect_power_per_bit]

/-- Witness for C5 at the spec section 8 scenario. -/
theorem interconnect_overhead_formulas_witness :
    (cfgA.Positive ∧ wA.Positive) ∧
      ((calculate_interconnect_overhead cfgA wA).1 =
        (wA.data_size_per_inference / cfgA.interconnect_bw + 50e-9) * 1000 ∧
      (calculate_interconnect_overhead cfgA wA).2 =
        wA.data_size_per_inference * 8e9 * 2e-12 * wA.inference_freq) :=
  ⟨⟨by norm_num [ChipletConfig.Positive, cfgA], by norm_num [Workload.Positive, wA]⟩,
    interconnect_overhead_formulas cfgA wA
      (by norm_num [ChipletConfig.Positive, cfgA]) (by norm_num [Workload.Positive, wA])⟩

/-- Claim C6: the coherence estimator returns `time_ms = 10 * 20e-9 * 1000`
(independent of `inference_freq`: replacing the frequency by any `f` leaves it
unchanged) and `power_w = 10 * 0.05 * inference_freq` (the power scales in
exact proportion to the frequency). -/
theorem coherence_overhead_formulas (c : ChipletConfig) (w : Workload) (f : ℚ)
    (hc : c.Positive) :
    (calculate_coherence_overhead c w).1 = 10 * 20e-9 * 1000 ∧
    (calculate_coherence_overhead c w).2 = 10 * 0.05 * w.inference_freq ∧
    (calculate_coherence_overhead c { w with inference_freq := f }).1 =
      (calculate_coherence_overhead c w).1 ∧
    (calculate_coherence_overhead c { w with inference_freq := f }).2 *
        w.inference_freq =
      (calculate_coherence_overhead c w).2 * f := by
  refine ⟨rfl, rfl, rfl, ?_⟩
  simp only [calculate_coherence_overhead]
  ring

/-- Witness for C6 at the spec section 8 scenario with the frequency
replaced by 60. -/
theorem coherence_overhead_formulas_witness :
    cfgA.Positive ∧
      ((calculate_coherence_overhead cfgA wA).1 = 10 * 20e-9 * 1000 ∧
      (calculate_coherence_overhead cfgA wA).2 = 10 * 0.05 * wA.inference_freq ∧
      (calculate_coherence_overhead cfgA { wA with inference_freq := 60 }).1 =
        (calculate_coherence_overhead cfgA wA).1 ∧
      (calculate_coherence_overhead cfgA { wA with inference_freq := 60 }).2 *
          wA.inference_freq =
        (calculate_coherence_overhead cfgA wA).2 * 60) :=
  ⟨by norm_num [ChipletConfig.Positive, cfgA],
    coherence_overhead_formulas cfgA wA 60 (by norm_num [ChipletConfig.Positive, cfgA])⟩

/-- Claim C9: with `data_size_per_inference = 0` the interconnect time is
exactly `50e-9 * 1000` ms and the memory time is exactly 0. -/
theorem zero_data_size_times (c : ChipletConfig) (w : Workload)
    (hc : c.Positive) (h0 : w.data_size_per_inference = 0) :
    (calculate_interconnect_overhead c w).1 = 50e-9 * 1000 ∧
    memory_time c w = 0 := by
  constructor <;> simp [calculate_interconnect_overhead, memory_time, h0,
    interconnect_latency]

/-- Witness for C9 at the spec section 8 configuration with zero data size. -/
theorem zero_data_size_times_witness :
    (cfgA.Positive ∧ wZ.data_size_per_inference = 0) ∧
      ((calculate_interconnect_overhead cfgA wZ).1 = 50e-9 * 1000 ∧
      memory_time cfgA wZ = 0) :=
  ⟨⟨by norm_num [ChipletConfig.Positive, cfgA], by norm_num [wZ]⟩,
    zero_data_size_times cfgA wZ (by norm_num [ChipletConfig.Positive, cfgA])
      (by norm_num [wZ])⟩

/-- On every strictly positive configuration no denominator vanishes, and the
fallible evaluation agrees with the pure formulas above: the two renderings
of the source coincide on the inputs the spec admits. -/
theorem runE_eq_some (c : ChipletConfig) (w : Workload) (hc : c.Positive) :
    runE c w = some ⟨c.cpu_dies, c.cpu_cores_per_die, c.npu_dies,
      c.npu_cores_per_die, cpu_time c w, npu_time c w,
      (calculate_interconnect_overhead c w).1,
      (calculate_coherence_overhead c w).1, sync_time c w, memory_time c w,
      total_time c w, calculate_power c w⟩ := by
  obtain ⟨hcd, hcc, hnd, hnc, hib, hmb⟩ := hc
  have hccq : ((total_cpu_cores c : ℤ) : ℚ) ≠ 0 := by
    have : (0 : ℤ) < total_cpu_cores c := mul_pos hcd hcc
    exact_mod_cast this.ne'
  have hncq : ((total_npu_cores c : ℤ) : ℚ) ≠ 0 := by
    have : (0 : ℤ) < total_npu_cores c := mul_pos hnd hnc
    exact_mod_cast this.ne'
  have hD1 : ((total_cpu_cores c : ℚ) * cpu_dmips_per_core) ≠ 0 :=
    mul_ne_zero hccq (by norm_num [cpu_dmips_per_core])
  have hD2 : ((total_cpu_cores c : ℚ) * cpu_flops_per_core) ≠ 0 :=
    mul_ne_zero hccq (by norm_num [cpu_flops_per_core, cpu_freq])
  have hD3 : ((total_npu_cores c : ℚ) * npu_flops_per_core) ≠ 0 :=
    mul_ne_zero hncq (by norm_num [npu_flops_per_core, npu_macs_per_core, npu_freq])
  have hccq' : (0 : ℚ) < (c.cpu_cores_per_die : ℚ) := by exact_mod_cast hcc
  have hncq' : (0 : ℚ) < (c.npu_cores_per_die : ℚ) := by exact_mod_cast hnc
  have hF : (1 + 0.2 * ((c.cpu_cores_per_die : ℚ) + (c.npu_cores_per_die : ℚ))) ≠ 0 := by
    nlinarith
  have hEB : effective_memory_bw c ≠ 0 := div_ne_zero hmb.ne' hF
  simp only [runE, calculate_performanceE, calculate_powerE,
    calculate_interconnect_overheadE, div?, if_neg hD1, if_neg hD2, if_neg hD3,
    if_neg hib.ne', if_neg hF, Option.bind_some, Option.some_bind]
  rw [if_neg]
  · rfl
  · exact fun h => hEB (by simpa [effective_memory_bw] using h)

/-- Claim C1, evaluated at the spec section 8 scenario (`npu_dies=1,
npu_cores_per_die=8, npu_flops=2e10`): the code's NPU stage time is
`1220703125/3` ms (about 4.07e8), which is exactly `1e9` times the value
`npu_flops / (npu_dies * npu_cores_per_die * npu_macs_per_core * 1.5e9 * 2)
* 1000` prescribed by the claim, and in particular differs from it: line 62
of the source multiplies `npu_macs_per_core` by the GHz number `1.5`
without the `* 1e9` hertz conversion that line 55 applies on the CPU path. -/
theorem npu_time_ghz_unit_gap :
    npu_time cfgA wA = 1220703125 / 3 ∧
    npu_time cfgA wA =
      1e9 * (wA.npu_flops /
        ((cfgA.npu_dies : ℚ) * (cfgA.npu_cores_per_die : ℚ) * (2048 * 1.5e9 * 2)) * 1000) ∧
    npu_time cfgA wA ≠
      wA.npu_flops /
        ((cfgA.npu_dies : ℚ) * (cfgA.npu_cores_per_die : ℚ) * (2048 * 1.5e9 * 2)) * 1000 := by
  norm_num [npu_time, total_npu_cores, npu_flops_per_core, npu_macs_per_core,
    npu_freq, cfgA, wA]

/-- Claim C7 counterexample: two inputs the claim covers on which the model
silently returns a full finite result record.  With `inference_freq = 0`
(workload `wF`) every denominator is still nonzero, since `inference_freq`
never appears as a denominator in the source; with `cpu_dies = -1`
(configuration `cfgN`) the denominators are negative but nonzero and the
model returns finite (negative, hence misleading) CPU times. -/
theorem run_defined_at_invalid_input :
    (wF.inference_freq = 0 ∧ (runE cfgA wF).isSome = true) ∧
    (cfgN.cpu_dies < 0 ∧ (runE cfgN wA).isSome = true) := by
  refine ⟨⟨by norm_num [wF], ?_⟩, ⟨by norm_num [cfgN], ?_⟩⟩
  · norm_num [runE, calculate_performanceE, calculate_powerE,
      calculate_interconnect_overheadE, div?, total_cpu_cores, total_npu_cores,
      cpu_dmips_per_core, cpu_flops_per_core, cpu_freq, npu_flops_per_core,
      npu_macs_per_core, npu_freq, cfgA, wF]
  · norm_num [runE, calculate_performanceE, calculate_powerE,
      calculate_interconnect_overheadE, div?, total_cpu_cores, total_npu_cores,
      cpu_dmips_per_core, cpu_flops_per_core, cpu_freq, npu_flops_per_core,
      npu_macs_per_core, npu_freq, cfgN, wA]

/-- If every continuation value is `none`, so is the bind. -/
theorem opt_bind_none {α β : Type} (x : Option α) (k : α → Option β)
    (h : ∀ a, k a = none) : Option.bind x k = none := by
  cases x <;> simp [h]

/-- Claim C7 as amended: whenever one of the die counts, core counts, or
bandwidths is exactly zero, some denominator in the evaluation is zero and
the model signals a division-by-zero error (returns no numeric result).
No such guarantee holds for negative values in those fields or for
zero/negative `inference_freq`. -/
theorem runE_none_of_zero_denominator (c : ChipletConfig) (w : Workload)
    (h : c.cpu_dies = 0 ∨ c.cpu_cores_per_die = 0 ∨ c.npu_dies = 0 ∨
      c.npu_cores_per_die = 0 ∨ c.interconnect_bw = 0 ∨ c.memory_bw = 0) :
    runE c w = none := by
  suffices hp : calculate_performanceE c w = none by simp [runE, hp]
  rcases h with h | h | h | h | h | h
  · have hD : ((total_cpu_cores c : ℚ) * cpu_dmips_per_core) = 0 := by
      simp [total_cpu_cores, h]
    simp [calculate_performanceE, div?, hD]
  · have hD : ((total_cpu_cores c : ℚ) * cpu_dmips_per_core) = 0 := by
      simp [total_cpu_cores, h]
    simp [calculate_performanceE, div?, hD]
  · have hD : ((total_npu_cores c : ℚ) * npu_flops_per_core) = 0 := by
      simp [total_npu_cores, h]
    unfold calculate_performanceE
    apply opt_bind_none
    intro ql
    apply opt_bind_none
    intro qa
    simp [div?, hD]
  · have hD : ((total_npu_cores c : ℚ) * npu_flops_per_core) = 0 := by
      simp [total_npu_cores, h]
    unfold calculate_performanceE
    apply opt_bind_none
    intro ql
    apply opt_bind_none
    intro qa
    simp [div?, hD]
  · unfold calculate_performanceE
    apply opt_bind_none
    intro ql
    apply opt_bind_none
    intro qa
    apply opt_bind_none
    intro qn
    have hic : calculate_interconnect_overheadE c w = none := by
      simp [calculate_interconnect_overheadE, div?, h]
    simp [hic]
  · unfold calculate_performanceE
    apply opt_bind_none
    intro ql
    apply opt_bind_none
    intro qa
    apply opt_bind_none
    intro qn
    apply opt_bind_none
    intro ic
    by_cases hF :
        (1 + 0.2 * ((c.cpu_cores_per_die : ℚ) + (c.npu_cores_per_die : ℚ))) = 0
    · simp [div?, hF]
    · simp [div?, hF, h, zero_div]

/-- Witness for the amended C7: with `cpu_dies = 0` the evaluation signals
the error. -/
theorem runE_none_of_zero_denominator_witness : runE cfgZ wA = none :=
  runE_none_of_zero_denominator cfgZ wA (Or.inl rfl)

/-- Claim C8: the total power is strictly increasing in each of `cpu_dies`,
`npu_dies`, `cpu_cores_per_die`, `npu_cores_per_die` and `inference_freq`,
holding all other inputs fixed. -/
theorem total_power_strict_mono (c : ChipletConfig) (w : Workload)
    (d₁ d₂ e₁ e₂ : ℤ) (f : ℚ) (hc : c.Positive) (hw : w.Positive)
    (h₁ : c.cpu_dies < d₁) (h₂ : c.npu_dies < d₂)
    (h₃ : c.cpu_cores_per_die < e₁) (h₄ : c.npu_cores_per_die < e₂)
    (h₅ : w.inference_freq < f) :
    calculate_power c w < calculate_power { c with cpu_dies := d₁ } w ∧
    calculate_power c w < calculate_power { c with npu_dies := d₂ } w ∧
    calculate_power c w < calculate_power { c with cpu_cores_per_die := e₁ } w ∧
    calculate_power c w < calculate_power { c with npu_cores_per_die := e₂ } w ∧
    calculate_power c w < calculate_power c { w with inference_freq := f } := by
  obtain ⟨hcd, hcc, hnd, hnc, hib, hmb⟩ := hc
  obtain ⟨hcf, hnf, hfr, hld, hds⟩ := hw
  have hcd' : (0 : ℚ) < (c.cpu_dies : ℚ) := by exact_mod_cast hcd
  have hcc' : (0 : ℚ) < (c.cpu_cores_per_die : ℚ) := by exact_mod_cast hcc
  have hnd' : (0 : ℚ) < (c.npu_dies : ℚ) := by exact_mod_cast hnd
  have hnc' : (0 : ℚ) < (c.npu_cores_per_die : ℚ) := by exact_mod_cast hnc
  have h₁' : (c.cpu_dies : ℚ) < (d₁ : ℚ) := by exact_mod_cast h₁
  have h₂' : (c.npu_dies : ℚ) < (d₂ : ℚ) := by exact_mod_cast h₂
  have h₃' : (c.cpu_cores_per_die : ℚ) < (e₁ : ℚ) := by exact_mod_cast h₃
  have h₄' : (c.npu_cores_per_die : ℚ) < (e₂ : ℚ) := by exact_mod_cast h₄
  have hK : (0 : ℚ) < w.data_size_per_inference * 8e9 * 2e-12 := by positivity
  simp only [calculate_power, total_cpu_cores, total_npu_cores,
    calculate_interconnect_overhead, calculate_coherence_overhead,
    cpu_power_per_core, npu_power_per_core, memory_power,
    interconnect_power_per_bit, coherence_ops_per_inference,
    coherence_power_per_op]
  push_cast
  refine ⟨?_, ?_, ?_, ?_, ?_⟩
  · nlinarith [mul_lt_mul_of_pos_right h₁' hcc']
  · nlinarith [mul_lt_mul_of_pos_right h₂' hnc']
  · nlinarith [mul_lt_mul_of_pos_left h₃' hcd']
  · nlinarith [mul_lt_mul_of_pos_left h₄' hnd']
  · nlinarith [mul_lt_mul_of_pos_left h₅ hK]

/-- Witness for C8 at the spec section 8 scenario, bumping each knob by one
(and the frequency to 31). -/
theorem total_power_strict_mono_witness :
    (cfgA.Positive ∧ wA.Positive) ∧
      (calculate_power cfgA wA < calculate_power { cfgA with cpu_dies := 3 } wA ∧
      calculate_power cfgA wA < calculate_power { cfgA with npu_dies := 2 } wA ∧
      calculate_power cfgA wA < calculate_power { cfgA with cpu_cores_per_die := 5 } wA ∧
      calculate_power cfgA wA < calculate_power { cfgA with npu_cores_per_die := 9 } wA ∧
      calculate_power cfgA wA < calculate_power cfgA { wA with inference_freq := 31 }) :=
  ⟨⟨by norm_num [ChipletConfig.Positive, cfgA], by norm_num [Workload.Positive, wA]⟩,
    total_power_strict_mono cfgA wA 3 2 5 9 31
      (by norm_num [ChipletConfig.Positive, cfgA]) (by norm_num [Workload.Positive, wA])
      (by norm_num [cfgA]) (by norm_num [cfgA]) (by norm_num [cfgA])
      (by norm_num [cfgA]) (by norm_num [wA])⟩

/-- Claim C10: two inputs that agree on the die counts, per-die core counts,
`inference_freq` and `data_size_per_inference` but differ arbitrarily in
`cpu_flops`, `npu_flops`, `linux_dmips`, `interconnect_bw` and `memory_bw`
receive the same total power whenever the model returns one. -/
theorem total_power_oblivious (c₁ : ChipletConfig) (w₁ : Workload)
    (c₂ : ChipletConfig) (w₂ : Workload) (p₁ p₂ : ℚ)
    (h₁ : c₁.cpu_dies = c₂.cpu_dies)
    (h₂ : c₁.cpu_cores_per_die = c₂.cpu_cores_per_die)
    (h₃ : c₁.npu_dies = c₂.npu_dies)
    (h₄ : c₁.npu_cores_per_die = c₂.npu_cores_per_die)
    (h₅ : w₁.inference_freq = w₂.inference_freq)
    (h₆ : w₁.data_size_per_inference = w₂.data_size_per_inference)
    (hp₁ : calculate_powerE c₁ w₁ = some p₁)
    (hp₂ : calculate_powerE c₂ w₂ = some p₂) :
    p₁ = p₂ := by
  simp only [calculate_powerE, calculate_interconnect_overheadE, div?,
    calculate_coherence_overhead, total_cpu_cores, total_npu_cores] at hp₁ hp₂
  split_ifs at hp₁ hp₂ <;> simp_all

/-- Witness for C10: `cfgA/wA` and `cfgB/wB` agree on topology, frequency
and data size, differ in both bandwidths and all demand volumes, and both
yield 32503/625 W. -/
theorem total_power_oblivious_witness :
    (calculate_powerE cfgA wA = some (32503 / 625) ∧
      calculate_powerE cfgB wB = some (32503 / 625)) ∧
    (32503 / 625 : ℚ) = 32503 / 625 :=
  ⟨⟨by norm_num [calculate_powerE, calculate_interconnect_overheadE, div?,
      total_cpu_cores, total_npu_cores, calculate_coherence_overhead,
      cpu_power_per_core, npu_power_per_core, memory_power,
      interconnect_power_per_bit, coherence_ops_per_inference,
      coherence_power_per_op, cfgA, wA],
    by norm_num [calculate_powerE, calculate_interconnect_overheadE, div?,
      total_cpu_cores, total_npu_cores, calculate_coherence_overhead,
      cpu_power_per_core, npu_power_per_core, memory_power,
      interconnect_power_per_bit, coherence_ops_per_inference,
      coherence_power_per_op, cfgB, wB]⟩,
    total_power_oblivious cfgA wA cfgB wB (32503 / 625) (32503 / 625)
      rfl rfl rfl rfl rfl rfl
      (by norm_num [calculate_powerE, calculate_interconnect_overheadE, div?,
        total_cpu_cores, total_npu_cores, calculate_coherence_overhead,
        cpu_power_per_core, npu_power_per_core, memory_power,
        interconnect_power_per_bit, coherence_ops_per_inference,
        coherence_power_per_op, cfgA, wA])
      (by norm_num [calculate_powerE, calculate_interconnect_overheadE, div?,
        total_cpu_cores, total_npu_cores, calculate_coherence_overhead,
        cpu_power_per_core, npu_power_per_core, memory_power,
        interconnect_power_per_bit, coherence_ops_per_inference,
        coherence_power_per_op, cfgB, wB])⟩

end ChipletSim
